import Mathlib

/-
Verification of the Occamy VNC protocol bridge against its specification.

The development shallowly embeds the relevant parts of
src/guacamole/src/protocols/vnc/vnc.c and the user/input handler source
file: pixel-format descriptors, the framebuffer-update and cursor pixel
loops, the copyrect/update callback state machine, the frame-pacing
decision of the session loop, the clipboard-encoding selector, the input
handlers, the join handler and the callback installation of
guac_vnc_get_client. Machine integers are modelled as Nat (or Int for
timestamps) with explicit reductions mod 2^32 or mod 256 where the C
types wrap.
-/

/-- Pixel format descriptor mirroring the fields of libVNC's
`rfbPixelFormat` that vnc.c uses: `bitsPerPixel`, `depth`, and the
per-channel shift and max. -/
structure PixelFormat where
  depth : Nat
  bitsPerPixel : Nat
  redShift : Nat
  greenShift : Nat
  blueShift : Nat
  redMax : Nat
  greenMax : Nat
  blueMax : Nat
deriving DecidableEq

/-- Embeds `guac_vnc_set_pixel_format` (vnc.c 113-150): the pixel format
requested for a given color depth; 24, 32 and every other depth fall
through to the default 32-bpp case of the C switch. -/
def guac_vnc_set_pixel_format (color_depth : Nat) : PixelFormat :=
  if color_depth = 8 then
    { depth := 8, bitsPerPixel := 8, blueShift := 6, redShift := 0, greenShift := 3,
      blueMax := 3, redMax := 7, greenMax := 7 }
  else if color_depth = 16 then
    { depth := 16, bitsPerPixel := 16, blueShift := 0, redShift := 11, greenShift := 5,
      blueMax := 0x1f, redMax := 0x1f, greenMax := 0x3f }
  else
    { depth := 24, bitsPerPixel := 32, blueShift := 0, redShift := 16, greenShift := 8,
      blueMax := 0xff, redMax := 0xff, greenMax := 0xff }

/-- Reads one byte of a buffer modelled as a list of bytes: out-of-range
reads yield 0 and entries are reduced mod 256 as C `unsigned char`. -/
def fbByte (fb : List Nat) (i : Nat) : Nat := fb.getD i 0 % 256

/-- Embeds the `switch (bpp)` pixel read of `guac_vnc_update`
(vnc.c 227-238) and `guac_vnc_cursor` (vnc.c 384-395): a native
little-endian read of 4, 2 or (default) 1 byte at the given offset. -/
def guac_vnc_read_pixel (fb : List Nat) (bpp off : Nat) : Nat :=
  if bpp = 4 then
    fbByte fb off + fbByte fb (off + 1) * 0x100 + fbByte fb (off + 2) * 0x10000 +
      fbByte fb (off + 3) * 0x1000000
  else if bpp = 2 then
    fbByte fb off + fbByte fb (off + 1) * 0x100
  else
    fbByte fb off

/-- Embeds the channel extraction of vnc.c 241-243 and 402-404:
`(v >> shift) * 0x100 / (max + 1)` in C `unsigned int` arithmetic, so the
product wraps mod 2^32 before the division. -/
def guac_vnc_channel (v shift maxc : Nat) : Nat :=
  (v >>> shift) * 0x100 % 0x100000000 / (maxc + 1)

/-- Embeds the per-pixel RGB translation and output assembly of
`guac_vnc_update` (vnc.c 240-249): each channel is stored into a C
`unsigned char` (mod 256), then the output word is assembled with shifts
and ors, swapping the red and blue positions when the `swap_red_blue`
setting is on. -/
def guac_vnc_translate_pixel (fmt : PixelFormat) (swap_red_blue : Bool) (v : Nat) : Nat :=
  let red := guac_vnc_channel v fmt.redShift fmt.redMax % 256
  let green := guac_vnc_channel v fmt.greenShift fmt.greenMax % 256
  let blue := guac_vnc_channel v fmt.blueShift fmt.blueMax % 256
  if swap_red_blue then ((blue <<< 16) ||| (green <<< 8)) ||| red
  else ((red <<< 16) ||| (green <<< 8)) ||| blue

/-- Embeds the double pixel loop of `guac_vnc_update` (vnc.c 199-254):
the rectangle (x, y, w, h) of the framebuffer, whose rows are
`bpp * width` bytes apart, is translated pixel by pixel, row-major, into
the list of 32-bit words written to the Cairo buffer. -/
def guac_vnc_update_pixels (fmt : PixelFormat) (swap_red_blue : Bool) (fb : List Nat)
    (width x y w h : Nat) : List Nat :=
  let bpp := fmt.bitsPerPixel / 8
  let fb_stride := bpp * width
  (List.range h).flatMap fun dy =>
    (List.range w).map fun dx =>
      guac_vnc_translate_pixel fmt swap_red_blue
        (guac_vnc_read_pixel fb bpp ((y + dy) * fb_stride + (x + dx) * bpp))

/-- Drawing operations issued to the shared display surface. -/
inductive SurfaceOp where
  | draw (x y : Nat) (pixels : List Nat)
  | copy (src_x src_y w h dest_x dest_y : Nat)
deriving DecidableEq

/-- Callback-visible state of a `guac_vnc_client`: the `copy_rect_used`
flag plus the trace of surface operations issued so far. -/
structure VncClientState where
  copy_rect_used : Bool
  ops : List SurfaceOp
deriving DecidableEq

/-- Embeds `guac_vnc_update` as a state transition (vnc.c 175-268): if
`copy_rect_used` is set, clear it and return without drawing; otherwise
translate the rectangle and issue exactly one surface draw. -/
def guac_vnc_update_step (fmt : PixelFormat) (swap_red_blue : Bool) (fb : List Nat)
    (width : Nat) (s : VncClientState) (x y w h : Nat) : VncClientState :=
  if s.copy_rect_used then { s with copy_rect_used := false }
  else { s with ops := s.ops ++
    [SurfaceOp.draw x y (guac_vnc_update_pixels fmt swap_red_blue fb width x y w h)] }

/-- Embeds `guac_vnc_copyrect` as a state transition (vnc.c 301-313):
issue one surface copy and set `copy_rect_used`. -/
def guac_vnc_copyrect_step (s : VncClientState)
    (src_x src_y w h dest_x dest_y : Nat) : VncClientState :=
  { copy_rect_used := true,
    ops := s.ops ++ [SurfaceOp.copy src_x src_y w h dest_x dest_y] }

/-- Embeds the pixel loop of `guac_vnc_cursor` (vnc.c 347-427).
`rcSource` is read like the framebuffer in `guac_vnc_update`, with row
stride `bpp * w`. The mask pointer `fb_mask` advances one byte per pixel
(`*(fb_mask++)`) and is never reset between rows, so pixel (dy, dx)
reads mask byte `dy * w + dx`; alpha is 0xFF when that byte is nonzero
and 0x00 otherwise, and the ARGB word is assembled from `alpha << 24`
and the RGB channels with shifts and ors. -/
def guac_vnc_cursor_pixels (fmt : PixelFormat) (swap_red_blue : Bool)
    (src mask : List Nat) (w h bpp : Nat) : List Nat :=
  let fb_stride := bpp * w
  (List.range h).flatMap fun dy =>
    (List.range w).map fun dx =>
      let v := guac_vnc_read_pixel src bpp (dy * fb_stride + dx * bpp)
      let alpha := if fbByte mask (dy * w + dx) ≠ 0 then 0xFF else 0x00
      let red := guac_vnc_channel v fmt.redShift fmt.redMax % 256
      let green := guac_vnc_channel v fmt.greenShift fmt.greenMax % 256
      let blue := guac_vnc_channel v fmt.blueShift fmt.blueMax % 256
      if swap_red_blue then (((alpha <<< 24) ||| (blue <<< 16)) ||| (green <<< 8)) ||| red
      else (((alpha <<< 24) ||| (red <<< 16)) ||| (green <<< 8)) ||| blue

/-- Defined from the claim's words (the C5 reading of the cursor mask):
a 1-bit-per-pixel mask, row-major, MSB-first within each byte, each row
packed into `(w + 7) / 8` bytes (spec section 9); alpha is 0xFF where
the corresponding bit is 1. Compared against `guac_vnc_cursor_pixels`,
which is what the code does. -/
def cursor_pixels_mask_bitpacked (fmt : PixelFormat) (swap_red_blue : Bool)
    (src mask : List Nat) (w h bpp : Nat) : List Nat :=
  let fb_stride := bpp * w
  let rowBytes := (w + 7) / 8
  (List.range h).flatMap fun dy =>
    (List.range w).map fun dx =>
      let v := guac_vnc_read_pixel src bpp (dy * fb_stride + dx * bpp)
      let bit := (fbByte mask (dy * rowBytes + dx / 8) >>> (7 - dx % 8)) % 2
      let alpha := if bit = 1 then 0xFF else 0x00
      let red := guac_vnc_channel v fmt.redShift fmt.redMax % 256
      let green := guac_vnc_channel v fmt.greenShift fmt.greenMax % 256
      let blue := guac_vnc_channel v fmt.blueShift fmt.blueMax % 256
      if swap_red_blue then (((alpha <<< 24) ||| (blue <<< 16)) ||| (green <<< 8)) ||| red
      else (((alpha <<< 24) ||| (red <<< 16)) ||| (green <<< 8)) ||| blue

/-- Defined from the claim's words (C6): exchange byte positions 0 and 2
of a 32-bit word, leaving bytes 1 and 3 in place. -/
def swapBytes02 (word : Nat) : Nat :=
  word / 0x10000 % 0x100 + word / 0x100 % 0x100 * 0x100 +
    word % 0x100 * 0x10000 + word / 0x1000000 * 0x1000000

/-- Modelled from the spec: the constant `GUAC_VNC_FRAME_DURATION` comes
from vnc.h, which is not under src/; spec section 4.5 gives the target
frame period as 40 ms. -/
def GUAC_VNC_FRAME_DURATION : Int := 40

/-- Modelled from the spec: the constant `GUAC_VNC_FRAME_TIMEOUT` comes
from vnc.h, which is not under src/; spec section 4.5 gives the short
in-frame wait as 0 ms. -/
def GUAC_VNC_FRAME_TIMEOUT : Int := 0

/-- Outcome of one inner-loop iteration of `guac_vnc_client_thread`:
either wait the given number of microseconds for more data, or leave the
frame loop. -/
inductive FrameStep where
  | waitMicros (timeout : Int)
  | breakFrame
deriving DecidableEq

/-- Embeds the inner-loop wait decision of `guac_vnc_client_thread`
(vnc.c 759-778): `frame_remaining = frame_start + FRAME_DURATION -
frame_end`, `time_elapsed = frame_end - last_frame_end`,
`required_wait = processing_lag - time_elapsed`; if `required_wait >
FRAME_TIMEOUT` wait `required_wait * 1000` microseconds, else if
`frame_remaining > 0` wait `FRAME_TIMEOUT * 1000` microseconds, else
break out of the frame. Timestamps are milliseconds as C ints. -/
def guac_vnc_frame_wait (processing_lag frame_start frame_end last_frame_end : Int) :
    FrameStep :=
  let frame_remaining := frame_start + GUAC_VNC_FRAME_DURATION - frame_end
  let time_elapsed := frame_end - last_frame_end
  let required_wait := processing_lag - time_elapsed
  if required_wait > GUAC_VNC_FRAME_TIMEOUT then FrameStep.waitMicros (required_wait * 1000)
  else if frame_remaining > 0 then FrameStep.waitMicros (GUAC_VNC_FRAME_TIMEOUT * 1000)
  else FrameStep.breakFrame

/-- Clipboard encodings selectable by `guac_vnc_set_clipboard_encoding`;
the C reader/writer constant pairs (GUAC_READ_X / GUAC_WRITE_X) are
identified by the encoding they transcode. -/
inductive ClipboardEncoding where
  | ISO8859_1
  | UTF8
  | UTF16
  | CP1252
deriving DecidableEq

/-- Result of `guac_vnc_set_clipboard_encoding`: the C int return value,
the reader and writer encodings stored on the client, and whether the
invalid-encoding warning was logged. -/
structure ClipboardCodecResult where
  ret : Int
  reader : ClipboardEncoding
  writer : ClipboardEncoding
  warned : Bool
deriving DecidableEq

/-- Embeds `guac_vnc_set_clipboard_encoding` (vnc.c 630-671): NULL or
"ISO8859-1" select ISO8859-1 and return 0; "UTF-8", "UTF-16" and
"CP1252" select the matching pair and return 1; any other name logs a
warning, falls back to ISO8859-1 and returns 0. -/
def guac_vnc_set_clipboard_encoding (name : Option String) : ClipboardCodecResult :=
  match name with
  | none => { ret := 0, reader := ClipboardEncoding.ISO8859_1,
              writer := ClipboardEncoding.ISO8859_1, warned := false }
  | some n =>
    if n = "ISO8859-1" then
      { ret := 0, reader := ClipboardEncoding.ISO8859_1,
        writer := ClipboardEncoding.ISO8859_1, warned := false }
    else if n = "UTF-8" then
      { ret := 1, reader := ClipboardEncoding.UTF8,
        writer := ClipboardEncoding.UTF8, warned := false }
    else if n = "UTF-16" then
      { ret := 1, reader := ClipboardEncoding.UTF16,
        writer := ClipboardEncoding.UTF16, warned := false }
    else if n = "CP1252" then
      { ret := 1, reader := ClipboardEncoding.CP1252,
        writer := ClipboardEncoding.CP1252, warned := false }
    else
      { ret := 0, reader := ClipboardEncoding.ISO8859_1,
        writer := ClipboardEncoding.ISO8859_1, warned := true }

/-- Events emitted to the upstream RFB connection by the input
handlers. -/
inductive RfbEvent where
  | pointer (x y mask : Int)
  | key (keysym pressed : Int)
  | cutText (data : List Nat)
deriving DecidableEq

/-- Side effects of one input-handler invocation: updates recorded on
the shared cursor and events sent to the upstream RFB connection. -/
structure InputEffects where
  cursorUpdates : List (Int × Int × Int)
  rfbEvents : List RfbEvent
deriving DecidableEq

/-- Embeds `guac_vnc_user_mouse_handler` (user handler source, 38-52):
the shared cursor is updated unconditionally via
`guac_common_cursor_update`, then a pointer event is sent only if the
upstream `rfb_client` handle is non-null; the handler returns 0. -/
def guac_vnc_user_mouse_handler (rfb_connected : Bool) (x y mask : Int) :
    InputEffects × Int :=
  ({ cursorUpdates := [(x, y, mask)],
     rfbEvents := if rfb_connected then [RfbEvent.pointer x y mask] else [] }, 0)

/-- Embeds `guac_vnc_user_key_handler` (user handler source, 57-67): a
key event is sent only if the upstream `rfb_client` handle is non-null;
nothing else happens and the handler returns 0. -/
def guac_vnc_user_key_handler (rfb_connected : Bool) (keysym pressed : Int) :
    InputEffects × Int :=
  ({ cursorUpdates := [],
     rfbEvents := if rfb_connected then [RfbEvent.key keysym pressed] else [] }, 0)

/-- Modelled from the spec: `guac_vnc_clipboard_handler` lives in the
clipboard source file, which is not under src/. Spec section 4.6 says it
transcodes via the clipboard writer and emits RFB cut-text, and that
input handlers silently drop events until the upstream handle is
non-null. -/
def guac_vnc_clipboard_handler (rfb_connected : Bool) (data : List Nat) :
    InputEffects × Int :=
  ({ cursorUpdates := [],
     rfbEvents := if rfb_connected then [RfbEvent.cutText data] else [] }, 0)

/-- Observable effects of `guac_vnc_user_join_handler`. -/
inductive JoinEffect where
  | startClientThread
  | dupTo
  | socketFlush
deriving DecidableEq

/-- Result of `guac_vnc_user_join_handler`: the C int return value, the
ordered effects performed, and whether the mouse/key/clipboard handlers
were installed on the user. -/
structure JoinResult where
  ret : Int
  effects : List JoinEffect
  handlersInstalled : Bool
deriving DecidableEq

/-- Embeds `guac_vnc_user_join_handler` (user handler source, 69-127):
reject unparseable settings with 1; for the owner, start the client
thread (returning 1 if thread creation fails); for a guest, replay the
display via `guac_common_display_dup` only when `vnc_client->display` is
non-null, then flush the user's socket; finally install the input
handlers unless the settings are read-only. -/
def guac_vnc_user_join_handler (owner settings_parsed read_only display_initialised
    thread_create_ok : Bool) : JoinResult :=
  if settings_parsed = false then
    { ret := 1, effects := [], handlersInstalled := false }
  else if owner then
    if thread_create_ok = false then
      { ret := 1, effects := [], handlersInstalled := false }
    else
      { ret := 0, effects := [JoinEffect.startClientThread],
        handlersInstalled := read_only = false }
  else
    { ret := 0,
      effects := (if display_initialised then [JoinEffect.dupTo] else []) ++
        [JoinEffect.socketFlush],
      handlersInstalled := read_only = false }

/-- The callback and cursor configuration produced by
`guac_vnc_get_client`: which libVNC callbacks are installed and the
value, if any, assigned to `appData.useRemoteCursor`. -/
structure RfbHandlers where
  gotFrameBufferUpdate : Bool
  gotCopyRect : Bool
  gotXCutText : Bool
  gotCursorShape : Bool
  useRemoteCursor : Option Bool
deriving DecidableEq

/-- Embeds the callback installation of `guac_vnc_get_client`
(vnc.c 506-547): the update and copyrect callbacks are always installed;
only when the connection is not read-only is `GotXCutText` installed,
and then `GotCursorShape` is installed exactly when the remote-cursor
setting is off (with `useRemoteCursor` set to FALSE when the setting is
on and TRUE when it is off). -/
def guac_vnc_get_client_handlers (read_only remote_cursor : Bool) : RfbHandlers :=
  let h0 : RfbHandlers :=
    { gotFrameBufferUpdate := true, gotCopyRect := true, gotXCutText := false,
      gotCursorShape := false, useRemoteCursor := none }
  if read_only = false then
    if remote_cursor then
      { h0 with gotXCutText := true, useRemoteCursor := some false }
    else
      { h0 with
          gotXCutText := true, useRemoteCursor := some true, gotCursorShape := true }
  else
    h0

/-- Helper: the or of a multiple of `2 ^ n` with a value below `2 ^ n`
is their sum. -/
theorem lor_eq_add_pow (a b n : Nat) (h : b < 2 ^ n) : (2 ^ n * a) ||| b = 2 ^ n * a + b :=
  (Nat.mul_add_lt_is_or h a).symm

/-- Helper: a three-byte word assembled with shifts and ors, as in
`guac_vnc_translate_pixel`, equals the corresponding base-256 sum. -/
theorem word3_eq (r g b : Nat) (hg : g < 256) (hb : b < 256) :
    ((r <<< 16) ||| (g <<< 8)) ||| b = r * 65536 + g * 256 + b := by
  have p16 : (2 : Nat) ^ 16 = 65536 := by norm_num
  have p8 : (2 : Nat) ^ 8 = 256 := by norm_num
  have e1 : r <<< 16 = 2 ^ 16 * r := by rw [Nat.shiftLeft_eq, Nat.mul_comm]
  have e2 : g <<< 8 = g * 256 := by rw [Nat.shiftLeft_eq, p8]
  have h2 : g * 256 < 2 ^ 16 := by omega
  rw [e1, e2, lor_eq_add_pow _ _ _ h2]
  have e3 : 2 ^ 16 * r + g * 256 = 2 ^ 8 * (r * 256 + g) := by omega
  rw [e3, lor_eq_add_pow _ _ _ (show b < 2 ^ 8 by omega)]
  omega

/-- Helper: a four-byte ARGB word assembled with shifts and ors, as in
`guac_vnc_cursor_pixels`, equals the corresponding base-256 sum. -/
theorem word4_eq (a r g b : Nat) (hr : r < 256) (hg : g < 256) (hb : b < 256) :
    (((a <<< 24) ||| (r <<< 16)) ||| (g <<< 8)) ||| b
      = a * 16777216 + r * 65536 + g * 256 + b := by
  have p24 : (2 : Nat) ^ 24 = 16777216 := by norm_num
  have p16 : (2 : Nat) ^ 16 = 65536 := by norm_num
  have p8 : (2 : Nat) ^ 8 = 256 := by norm_num
  have e1 : a <<< 24 = 2 ^ 24 * a := by rw [Nat.shiftLeft_eq, Nat.mul_comm]
  have e2 : r <<< 16 = r * 65536 := by rw [Nat.shiftLeft_eq, p16]
  have e3 : g <<< 8 = g * 256 := by rw [Nat.shiftLeft_eq, p8]
  rw [e1, e2, e3, lor_eq_add_pow _ _ _ (show r * 65536 < 2 ^ 24 by omega)]
  have e4 : 2 ^ 24 * a + r * 65536 = 2 ^ 16 * (a * 256 + r) := by omega
  rw [e4, lor_eq_add_pow _ _ _ (show g * 256 < 2 ^ 16 by omega)]
  have e5 : 2 ^ 16 * (a * 256 + r) + g * 256 = 2 ^ 8 * ((a * 256 + r) * 256 + g) := by omega
  rw [e5, lor_eq_add_pow _ _ _ (show b < 2 ^ 8 by omega)]
  omega

/-- Helper: swapping byte positions 0 and 2 of a three-byte word swaps
its outer channels. -/
theorem swapBytes02_word3 (r g b : Nat) (hr : r < 256) (hg : g < 256) (hb : b < 256) :
    swapBytes02 (((b <<< 16) ||| (g <<< 8)) ||| r) = ((r <<< 16) ||| (g <<< 8)) ||| b := by
  rw [word3_eq b g r hg hr, word3_eq r g b hg hb]
  unfold swapBytes02
  have h1 : (b * 65536 + g * 256 + r) / 65536 % 256 = b := by omega
  have h2 : (b * 65536 + g * 256 + r) / 256 % 256 = g := by omega
  have h3 : (b * 65536 + g * 256 + r) % 256 = r := by omega
  have h4 : (b * 65536 + g * 256 + r) / 16777216 = 0 := by omega
  rw [h1, h2, h3, h4]
  ring

/-- Helper: swapping byte positions 0 and 2 of a four-byte ARGB word
swaps its outer colour channels and preserves the alpha byte. -/
theorem swapBytes02_word4 (a r g b : Nat) (hr : r < 256) (hg : g < 256)
    (hb : b < 256) :
    swapBytes02 ((((a <<< 24) ||| (b <<< 16)) ||| (g <<< 8)) ||| r)
      = (((a <<< 24) ||| (r <<< 16)) ||| (g <<< 8)) ||| b := by
  rw [word4_eq a b g r hb hg hr, word4_eq a r g b hr hg hb]
  unfold swapBytes02
  have h1 : (a * 16777216 + b * 65536 + g * 256 + r) / 65536 % 256 = b := by omega
  have h2 : (a * 16777216 + b * 65536 + g * 256 + r) / 256 % 256 = g := by omega
  have h3 : (a * 16777216 + b * 65536 + g * 256 + r) % 256 = r := by omega
  have h4 : (a * 16777216 + b * 65536 + g * 256 + r) / 16777216 = a := by omega
  rw [h1, h2, h3, h4]
  ring

/-- Helper: every stored channel byte is below 256. -/
theorem channel_byte_lt (v shift maxc : Nat) : guac_vnc_channel v shift maxc % 256 < 256 :=
  Nat.mod_lt _ (by norm_num)

/-- Helper: per-pixel swap-red-blue symmetry of the update translation. -/
theorem swapBytes02_translate (fmt : PixelFormat) (v : Nat) :
    swapBytes02 (guac_vnc_translate_pixel fmt true v) = guac_vnc_translate_pixel fmt false v := by
  simp only [guac_vnc_translate_pixel, if_true]
  exact swapBytes02_word3 _ _ _ (channel_byte_lt _ _ _) (channel_byte_lt _ _ _)
    (channel_byte_lt _ _ _)

/-- Helper: per-pixel swap-red-blue symmetry, reverse direction. -/
theorem swapBytes02_translate_rev (fmt : PixelFormat) (v : Nat) :
    swapBytes02 (guac_vnc_translate_pixel fmt false v) = guac_vnc_translate_pixel fmt true v := by
  simp only [guac_vnc_translate_pixel, if_true]
  exact swapBytes02_word3 _ _ _ (channel_byte_lt _ _ _) (channel_byte_lt _ _ _)
    (channel_byte_lt _ _ _)

/-- Helper: an ARGB word assembled left-associatively, as in the C
source, regroups as alpha or-ed onto the three-byte RGB word. -/
theorem word4_regroup (a r g b : Nat) :
    (((a <<< 24) ||| (r <<< 16)) ||| (g <<< 8)) ||| b
      = (a <<< 24) ||| (((r <<< 16) ||| (g <<< 8)) ||| b) := by
  rw [Nat.or_assoc, Nat.or_assoc, Nat.or_assoc]

/-- Claim C1, corrected. The claim asserts the extracted channel value
`(v >> shift) * 256 / (max + 1)` lies in [0, 256) for every channel
descriptor with `max >= 1` and every raw value; `guac_vnc_channel_overflow_cex`
refutes that. It does hold whenever the extracted field `v >> shift`
does not exceed `max` (with `max` a 16-bit quantity, as in the RFB
pixel-format fields). -/
theorem guac_vnc_channel_bounded (v shift maxc : Nat) (hmax : 1 ≤ maxc)
    (hword : maxc ≤ 65535) (hfield : v >>> shift ≤ maxc) :
    guac_vnc_channel v shift maxc < 256 := by
  unfold guac_vnc_channel
  have h1 : (v >>> shift) * 0x100 < 0x100000000 := by omega
  rw [Nat.mod_eq_of_lt h1, Nat.div_lt_iff_lt_mul (show 0 < maxc + 1 by omega)]
  omega

/-- Witness for `guac_vnc_channel_bounded` at the 32-bpp red channel
(shift 16, max 255) on raw value 0xFF0000. -/
theorem guac_vnc_channel_bounded_witness :
    1 ≤ 255 ∧ (255 : Nat) ≤ 65535 ∧ (0xFF0000 : Nat) >>> 16 ≤ 255 ∧
      guac_vnc_channel 0xFF0000 16 255 < 256 :=
  ⟨by decide, by decide, by decide,
    guac_vnc_channel_bounded 0xFF0000 16 255 (by decide) (by decide) (by decide)⟩

/-- Counterexample to claim C1 as stated: with the code's own 8-bit
pixel format (red shift 0, red max 7, so max >= 1) and the raw byte
value 255, the exact channel value is 8160, far above 256; the C code
only yields a byte because the store into `unsigned char` truncates. -/
theorem guac_vnc_channel_overflow_cex :
    1 ≤ (guac_vnc_set_pixel_format 8).redMax ∧
      guac_vnc_channel 255 (guac_vnc_set_pixel_format 8).redShift
        (guac_vnc_set_pixel_format 8).redMax = 8160 ∧
      ¬ guac_vnc_channel 255 (guac_vnc_set_pixel_format 8).redShift
          (guac_vnc_set_pixel_format 8).redMax < 256 := by
  refine ⟨by decide, by decide, by decide⟩

/-- Claim C2, corrected. With the 32-bpp format (shifts 16/8/0, maxes
255), swap-red-blue off, a GotFrameBufferUpdate(0, 0, 2, 1) over
little-endian framebuffer bytes 00 00 FF FF 00 FF 00 FF issues one
surface draw; its pixel words are 0xFF0000 and 0x00FF00 (the first
pixel has red 0xFF, since byte 2 feeds the red shift 16), not the
0x0000FF the claim states for the first word. -/
theorem guac_vnc_update_scenario :
    (guac_vnc_update_step (guac_vnc_set_pixel_format 32) false
        [0x00, 0x00, 0xFF, 0xFF, 0x00, 0xFF, 0x00, 0xFF] 1024
        { copy_rect_used := false, ops := [] } 0 0 2 1).ops
      = [SurfaceOp.draw 0 0 [0xFF0000, 0x00FF00]] := by
  decide

/-- Counterexample to claim C2 as stated: the draw issued for that
update does not carry the claimed pixel words 0x0000FF, 0x00FF00. -/
theorem guac_vnc_update_scenario_cex :
    (guac_vnc_update_step (guac_vnc_set_pixel_format 32) false
        [0x00, 0x00, 0xFF, 0xFF, 0x00, 0xFF, 0x00, 0xFF] 1024
        { copy_rect_used := false, ops := [] } 0 0 2 1).ops
      ≠ [SurfaceOp.draw 0 0 [0x0000FF, 0x00FF00]] := by
  decide

/-- Claim C3, confirmed: from any state, a GotCopyRect sets the
`copy_rect_used` flag and issues exactly one surface copy; the update
immediately following it clears the flag and issues nothing further, so
the CopyRect region is drawn exactly once; and an update from a state
with the flag clear leaves it clear and issues exactly one draw. -/
theorem guac_vnc_copyrect_suppression (fmt : PixelFormat) (swap_red_blue : Bool)
    (fb : List Nat) (width : Nat) (s : VncClientState)
    (sx sy cw ch dx dy ux uy uw uh : Nat) :
    ((guac_vnc_copyrect_step s sx sy cw ch dx dy).copy_rect_used = true
      ∧ (guac_vnc_copyrect_step s sx sy cw ch dx dy).ops
          = s.ops ++ [SurfaceOp.copy sx sy cw ch dx dy])
    ∧ ((guac_vnc_update_step fmt swap_red_blue fb width
          (guac_vnc_copyrect_step s sx sy cw ch dx dy) ux uy uw uh).copy_rect_used = false
      ∧ (guac_vnc_update_step fmt swap_red_blue fb width
          (guac_vnc_copyrect_step s sx sy cw ch dx dy) ux uy uw uh).ops
          = s.ops ++ [SurfaceOp.copy sx sy cw ch dx dy])
    ∧ (s.copy_rect_used = false →
        (guac_vnc_update_step fmt swap_red_blue fb width s ux uy uw uh).copy_rect_used = false
        ∧ (guac_vnc_update_step fmt swap_red_blue fb width s ux uy uw uh).ops
            = s.ops ++ [SurfaceOp.draw ux uy
                (guac_vnc_update_pixels fmt swap_red_blue fb width ux uy uw uh)]) := by
  refine ⟨⟨rfl, rfl⟩, ?_, ?_⟩
  · unfold guac_vnc_update_step guac_vnc_copyrect_step
    simp
  · intro hs
    unfold guac_vnc_update_step
    simp [hs]

/-- Witness for `guac_vnc_copyrect_suppression` at a concrete clean
state: an update with the flag clear issues its draw. -/
theorem guac_vnc_copyrect_suppression_witness :
    (guac_vnc_update_step (guac_vnc_set_pixel_format 32) false [] 0
        { copy_rect_used := false, ops := [] } 0 0 0 0).copy_rect_used = false
    ∧ (guac_vnc_update_step (guac_vnc_set_pixel_format 32) false [] 0
        { copy_rect_used := false, ops := [] } 0 0 0 0).ops
        = ([] : List SurfaceOp) ++ [SurfaceOp.draw 0 0
            (guac_vnc_update_pixels (guac_vnc_set_pixel_format 32) false [] 0 0 0 0 0)] :=
  (guac_vnc_copyrect_suppression (guac_vnc_set_pixel_format 32) false [] 0
    { copy_rect_used := false, ops := [] } 0 0 0 0 0 0 0 0 0 0).2.2 rfl

/-- Claim C4, corrected. With the upstream RFB handle still null, no
RFB event is emitted by any input handler and each returns 0; the key
handler (and the spec-modelled clipboard handler) produce no side
effect at all, but the mouse handler still records the event on the
shared cursor (`guac_common_cursor_update` runs before the null check),
refuting the claim that no state is modified. -/
theorem guac_vnc_input_null_handle (x y mask keysym pressed : Int) (data : List Nat) :
    (guac_vnc_user_mouse_handler false x y mask).1.rfbEvents = []
    ∧ (guac_vnc_user_mouse_handler false x y mask).1.cursorUpdates = [(x, y, mask)]
    ∧ (guac_vnc_user_mouse_handler false x y mask).2 = 0
    ∧ guac_vnc_user_key_handler false keysym pressed
        = ({ cursorUpdates := [], rfbEvents := [] }, 0)
    ∧ guac_vnc_clipboard_handler false data
        = ({ cursorUpdates := [], rfbEvents := [] }, 0) :=
  ⟨rfl, rfl, rfl, rfl, rfl⟩

/-- Counterexample to claim C4 as stated: a mouse event arriving while
the RFB handle is null does modify state — the shared cursor records
(5, 7, 1) — even though no RFB event is emitted. -/
theorem guac_vnc_mouse_null_state_cex :
    (guac_vnc_user_mouse_handler false 5 7 1).1.cursorUpdates = [(5, 7, 1)]
    ∧ (guac_vnc_user_mouse_handler false 5 7 1).1.cursorUpdates ≠ []
    ∧ (guac_vnc_user_mouse_handler false 5 7 1).1.rfbEvents = [] := by
  refine ⟨rfl, by decide, rfl⟩

/-- Claim C5, corrected. The cursor translator does not read a
1-bit-per-pixel MSB-first mask (refuted by
`guac_vnc_cursor_mask_bitpacked_cex`); it steps one mask byte per
pixel, row-major: for every format, swap setting, buffers and
dimensions, pixel (dy, dx) of the output equals
`(alpha << 24) | rest`, where alpha is 0xFF exactly when mask byte
`dy * w + dx` is nonzero and rest is the RGB translation of the pixel
read at offset `dy * (bpp * w) + dx * bpp`. -/
theorem guac_vnc_cursor_alpha_byte_mask (fmt : PixelFormat) (swap_red_blue : Bool)
    (src mask : List Nat) (w h bpp : Nat) :
    guac_vnc_cursor_pixels fmt swap_red_blue src mask w h bpp
      = (List.range h).flatMap fun dy =>
          (List.range w).map fun dx =>
            ((if fbByte mask (dy * w + dx) ≠ 0 then 0xFF else 0x00) <<< 24) |||
              guac_vnc_translate_pixel fmt swap_red_blue
                (guac_vnc_read_pixel src bpp (dy * (bpp * w) + dx * bpp)) := by
  simp only [guac_vnc_cursor_pixels]
  apply congrArg
  funext dy
  apply congrArg (fun f => List.map f (List.range w))
  funext dx
  cases swap_red_blue
  · exact word4_regroup _ _ _ _
  · exact word4_regroup _ _ _ _

/-- Counterexample to claim C5 as stated: on an 8-wide, 1-high cursor
with mask bytes 01 01 01 01 01 01 01 01, the code (one mask byte per
pixel) makes every pixel opaque, while the claimed bit-packed MSB-first
reading would make only the eighth pixel opaque. -/
theorem guac_vnc_cursor_mask_bitpacked_cex :
    guac_vnc_cursor_pixels (guac_vnc_set_pixel_format 8) false
        [0, 0, 0, 0, 0, 0, 0, 0] [1, 1, 1, 1, 1, 1, 1, 1] 8 1 1
      ≠ cursor_pixels_mask_bitpacked (guac_vnc_set_pixel_format 8) false
        [0, 0, 0, 0, 0, 0, 0, 0] [1, 1, 1, 1, 1, 1, 1, 1] 8 1 1 := by
  decide

/-- Claim C6, confirmed: for every pixel format and input buffer,
translating with swap-red-blue on and then exchanging byte positions 0
and 2 of each output word gives exactly the translation with the swap
off, and vice versa — for the framebuffer-update translation and for
the cursor translation alike. -/
theorem guac_vnc_swap_rb_symmetry (fmt : PixelFormat) (fb src mask : List Nat)
    (width x y w h cw ch cbpp : Nat) :
    ((guac_vnc_update_pixels fmt true fb width x y w h).map swapBytes02
        = guac_vnc_update_pixels fmt false fb width x y w h)
    ∧ ((guac_vnc_update_pixels fmt false fb width x y w h).map swapBytes02
        = guac_vnc_update_pixels fmt true fb width x y w h)
    ∧ ((guac_vnc_cursor_pixels fmt true src mask cw ch cbpp).map swapBytes02
        = guac_vnc_cursor_pixels fmt false src mask cw ch cbpp)
    ∧ ((guac_vnc_cursor_pixels fmt false src mask cw ch cbpp).map swapBytes02
        = guac_vnc_cursor_pixels fmt true src mask cw ch cbpp) := by
  refine ⟨?_, ?_, ?_, ?_⟩
  · simp only [guac_vnc_update_pixels, List.map_flatMap, List.map_map]
    apply congrArg
    funext dy
    apply congrArg (fun f => List.map f (List.range w))
    funext dx
    exact swapBytes02_translate fmt _
  · simp only [guac_vnc_update_pixels, List.map_flatMap, List.map_map]
    apply congrArg
    funext dy
    apply congrArg (fun f => List.map f (List.range w))
    funext dx
    exact swapBytes02_translate_rev fmt _
  · simp only [guac_vnc_cursor_pixels, List.map_flatMap, List.map_map]
    apply congrArg
    funext dy
    apply congrArg (fun f => List.map f (List.range cw))
    funext dx
    exact swapBytes02_word4 _ _ _ _ (channel_byte_lt _ _ _) (channel_byte_lt _ _ _)
      (channel_byte_lt _ _ _)
  · simp only [guac_vnc_cursor_pixels, List.map_flatMap, List.map_map]
    apply congrArg
    funext dy
    apply congrArg (fun f => List.map f (List.range cw))
    funext dx
    exact swapBytes02_word4 _ _ _ _ (channel_byte_lt _ _ _) (channel_byte_lt _ _ _)
      (channel_byte_lt _ _ _)

/-- Claim C7, confirmed (with the frame constants modelled from the
spec, since vnc.h is not under src/): whenever
`required_wait = processing_lag - (frame_end - last_frame_end)` exceeds
`FRAME_TIMEOUT`, the inner loop waits `required_wait` milliseconds
(`required_wait * 1000` microseconds) instead of the default; in
particular processing_lag 500 ms with 100 ms elapsed waits 400 ms. -/
theorem guac_vnc_lag_stretch_wait (processing_lag frame_start frame_end last_frame_end : Int)
    (h : processing_lag - (frame_end - last_frame_end) > GUAC_VNC_FRAME_TIMEOUT) :
    guac_vnc_frame_wait processing_lag frame_start frame_end last_frame_end
      = FrameStep.waitMicros ((processing_lag - (frame_end - last_frame_end)) * 1000) := by
  unfold guac_vnc_frame_wait
  rw [if_pos h]

/-- Witness for `guac_vnc_lag_stretch_wait`: processing lag 500 ms,
frame start 0, frame end 100, last frame end 0, giving a stretched wait
of 400 * 1000 microseconds. -/
theorem guac_vnc_lag_stretch_wait_witness :
    ((500 : Int) - (100 - 0) > GUAC_VNC_FRAME_TIMEOUT)
    ∧ guac_vnc_frame_wait 500 0 100 0
        = FrameStep.waitMicros (((500 : Int) - (100 - 0)) * 1000) :=
  ⟨by decide, guac_vnc_lag_stretch_wait 500 0 100 0 (by decide)⟩

/-- Claim C8, confirmed: `guac_vnc_set_clipboard_encoding` returns 0
exactly when the resulting encoding is ISO8859-1 (name NULL,
"ISO8859-1", or unrecognised with warning and fallback), returns
non-zero (1) for "UTF-8", "UTF-16" and "CP1252", and in every case the
reader/writer pair is set to the resulting encoding. -/
theorem guac_vnc_set_clipboard_encoding_spec :
    (∀ name : Option String,
        ((guac_vnc_set_clipboard_encoding name).ret = 0
          ↔ (guac_vnc_set_clipboard_encoding name).reader = ClipboardEncoding.ISO8859_1)
        ∧ (guac_vnc_set_clipboard_encoding name).writer
            = (guac_vnc_set_clipboard_encoding name).reader)
    ∧ guac_vnc_set_clipboard_encoding none
        = { ret := 0, reader := ClipboardEncoding.ISO8859_1,
            writer := ClipboardEncoding.ISO8859_1, warned := false }
    ∧ guac_vnc_set_clipboard_encoding (some "ISO8859-1")
        = { ret := 0, reader := ClipboardEncoding.ISO8859_1,
            writer := ClipboardEncoding.ISO8859_1, warned := false }
    ∧ guac_vnc_set_clipboard_encoding (some "UTF-8")
        = { ret := 1, reader := ClipboardEncoding.UTF8,
            writer := ClipboardEncoding.UTF8, warned := false }
    ∧ guac_vnc_set_clipboard_encoding (some "UTF-16")
        = { ret := 1, reader := ClipboardEncoding.UTF16,
            writer := ClipboardEncoding.UTF16, warned := false }
    ∧ guac_vnc_set_clipboard_encoding (some "CP1252")
        = { ret := 1, reader := ClipboardEncoding.CP1252,
            writer := ClipboardEncoding.CP1252, warned := false }
    ∧ guac_vnc_set_clipboard_encoding (some "KOI8-R")
        = { ret := 0, reader := ClipboardEncoding.ISO8859_1,
            writer := ClipboardEncoding.ISO8859_1, warned := true } := by
  refine ⟨?_, by decide, by decide, by decide, by decide, by decide, by decide⟩
  intro name
  cases name with
  | none => exact ⟨by decide, rfl⟩
  | some n =>
    simp only [guac_vnc_set_clipboard_encoding]
    split_ifs <;> simp

/-- Claim C9, confirmed: a guest (non-owner) join with parseable
settings skips the display replay when the shared display is not yet
initialised — avoiding the null dereference — and still flushes the
viewer's socket; when the display exists, it is replayed (dup) onto the
socket before the flush; the handler succeeds either way. -/
theorem guac_vnc_guest_join_null_display (read_only thread_create_ok : Bool) :
    (guac_vnc_user_join_handler false true read_only false thread_create_ok).effects
        = [JoinEffect.socketFlush]
    ∧ (guac_vnc_user_join_handler false true read_only true thread_create_ok).effects
        = [JoinEffect.dupTo, JoinEffect.socketFlush]
    ∧ (guac_vnc_user_join_handler false true read_only false thread_create_ok).ret = 0
    ∧ (guac_vnc_user_join_handler false true read_only true thread_create_ok).ret = 0 :=
  ⟨rfl, rfl, rfl, rfl⟩

/-- Claim C10, confirmed: when the connection is read-only,
`guac_vnc_get_client` installs neither `GotXCutText` nor
`GotCursorShape`; and `GotCursorShape` is also left uninstalled whenever
the remote-cursor setting is enabled. -/
theorem guac_vnc_get_client_callback_gating (read_only remote_cursor : Bool) :
    (read_only = true →
        (guac_vnc_get_client_handlers read_only remote_cursor).gotXCutText = false
        ∧ (guac_vnc_get_client_handlers read_only remote_cursor).gotCursorShape = false)
    ∧ (remote_cursor = true →
        (guac_vnc_get_client_handlers read_only remote_cursor).gotCursorShape = false) := by
  cases read_only <;> cases remote_cursor <;>
    refine ⟨fun hr => by simp_all [guac_vnc_get_client_handlers],
      fun hc => by simp_all [guac_vnc_get_client_handlers]⟩

/-- Witness for `guac_vnc_get_client_callback_gating` at read-only and
remote-cursor both enabled, plus the remote-cursor case alone. -/
theorem guac_vnc_get_client_callback_gating_witness :
    (guac_vnc_get_client_handlers true true).gotXCutText = false
    ∧ (guac_vnc_get_client_handlers true true).gotCursorShape = false
    ∧ (guac_vnc_get_client_handlers false true).gotCursorShape = false :=
  ⟨((guac_vnc_get_client_callback_gating true true).1 rfl).1,
    ((guac_vnc_get_client_callback_gating true true).1 rfl).2,
    (guac_vnc_get_client_callback_gating false true).2 rfl⟩
